import Mathlib

/-!
Verification of the attendance-app core: a shallow embedding of the
Google Apps Script backend (`handleStudentSubmission`, `startSession`,
`stopSession`, `getResponses`, `lookupRollNumber`, and the
`currentSession` script-property state) together with the client-side
session timer of `SessionScreen.tsx`, plus a spec-modelled device
binding registry for the part of the system served by the external
node server.

Machine strings are Lean `String`s; JavaScript `trim()` and
`toLowerCase()` are modelled character-wise (`jsTrim`, `jsToLower`);
timestamps are `Nat` milliseconds.
-/

/-! ## Definitions -/

/-- Model of JavaScript `String.prototype.toLowerCase()` (per-character
basic-latin lowering, as used on ASCII emails in the source). -/
def jsToLower (s : String) : String :=
  ⟨s.data.map Char.toLower⟩

/-- Model of JavaScript `String.prototype.trim()`: drop whitespace from
both ends. -/
def jsTrim (s : String) : String :=
  ⟨((s.data.dropWhile Char.isWhitespace).reverse.dropWhile Char.isWhitespace).reverse⟩

/-- The session state stored in the `currentSession` script property by
`setSessionState` (`part_005` lines 380–434): `sessionName`,
`startedAt` (an ISO timestamp, modelled as `Nat` ms) and `active`. -/
structure SessionState where
  sessionName : String
  startedAt : Nat
  active : Bool
deriving DecidableEq, Repr

/-- One appended row of the Attendance sheet (`part_005` lines 364–371).
The sheet also stores formatted date and time columns derived from the
same `now`; they are presentation of `timestamp` and are not modelled
separately. -/
structure Row where
  email : String
  rollNumber : String
  sessionName : String
  timestamp : Nat
deriving DecidableEq, Repr

/-- The mutable store the Apps Script reads and writes: the script
properties `SHEET_ID`, `ROLL_MAP_ID` and `currentSession`, the roll-map
sheet contents, and the attendance sheet rows. -/
structure ScriptState where
  sheetId : Option String
  rollMapId : Option String
  rollMap : List (String × String)
  currentSession : Option SessionState
  rows : List Row
deriving DecidableEq, Repr

/-- Embedding of `getSessionState` (`part_005` line 380). -/
def getSessionState (s : ScriptState) : Option SessionState :=
  s.currentSession

/-- Result of `lookupRollNumber` (`part_005` lines 478–495): returns the
mapped roll number, `"NO MAP"` when `ROLL_MAP_ID` is unset, and the
`"NOT FOUND"` sentinel when the email is absent.  The table side is
compared with `.toLowerCase().trim()` against the (already lowercased)
submitted email. -/
def lookupRollNumber (s : ScriptState) (email : String) : String :=
  match s.rollMapId with
  | none => "NO MAP"
  | some _ =>
    match s.rollMap.find? (fun p => decide (jsTrim (jsToLower p.1) = email)) with
    | some p => p.2
    | none => "NOT FOUND"

/-- Outcome of `handleStudentSubmission`: a `jsonResponse` carrying
either an `error` message or `success: true`. -/
inductive SubmitResult where
  | err (msg : String)
  | success
deriving DecidableEq, Repr

/-- Embedding of `handleStudentSubmission` (`part_005` lines 326–374): trim/lowercase
the email, trim the name, require both nonempty, require an active
current session, scan the sheet for an existing row with the same
lowercased email and the same session name, resolve the roll number
(never fatal), and append the row.  An unset `SHEET_ID` makes
`SpreadsheetApp.openById` throw, which `doPost` converts to an error
response, modelled by the `none` branch. -/
def handleStudentSubmission (rawEmail rawName : String) (now : Nat) (s : ScriptState) :
    SubmitResult × ScriptState :=
  let email := jsToLower (jsTrim rawEmail)
  let name := jsTrim rawName
  if email = "" ∨ name = "" then
    (SubmitResult.err "Email and name are required", s)
  else
    match s.currentSession with
    | none => (SubmitResult.err "Session is closed", s)
    | some sess =>
      if sess.active = false then
        (SubmitResult.err "Session is closed", s)
      else
        match s.sheetId with
        | none => (SubmitResult.err "Sheet not set up", s)
        | some _ =>
          if s.rows.any (fun r => decide (jsToLower r.email = email ∧ r.sessionName = sess.sessionName)) then
            (SubmitResult.err "You have already submitted for this session", s)
          else
            let rollNumber := lookupRollNumber s email
            (SubmitResult.success,
              { s with rows := s.rows ++ [⟨email, rollNumber, sess.sessionName, now⟩] })

/-- Result of `startSession`. -/
inductive StartResult where
  | err (msg : String)
  | ok (sessionName sheetUrl : String)
deriving DecidableEq, Repr

def StartResult.isOk : StartResult → Bool
  | StartResult.ok _ _ => true
  | StartResult.err _ => false

/-- The spreadsheet URL returned by `startSession` (the `catch` branch
of `part_005` lines 412–416; the `try` branch returns the same
location via the Drive API). -/
def sheetUrlOf (sid : String) : String :=
  "https://docs.google.com/spreadsheets/d/" ++ sid

/-- Embedding of `startSession` (`part_005` lines 393–423): reject an empty (after
trimming) name, require `SHEET_ID` to be configured, then
unconditionally overwrite `currentSession` with a fresh active session
named by the trimmed input. -/
def startSession (sessionName : String) (now : Nat) (s : ScriptState) :
    StartResult × ScriptState :=
  if jsTrim sessionName = "" then
    (StartResult.err "Session name is required", s)
  else
    match s.sheetId with
    | none => (StartResult.err "Run initialSetup() first from the script editor", s)
    | some sid =>
      let sess : SessionState :=
        { sessionName := jsTrim sessionName, startedAt := now, active := true }
      (StartResult.ok (jsTrim sessionName) (sheetUrlOf sid),
        { s with currentSession := some sess })

/-- The `jsonResponse` of `stopSession`. -/
structure StopResponse where
  success : Bool
  message : String
  sessionName : String
deriving DecidableEq, Repr

/-- Embedding of `stopSession` (`part_005` lines 425–434): spread the current
session with `active: false` and store it back.  When no session was
ever stored, the JavaScript spread of `null` produces an object whose
only field is `active: false`; the absent fields are modelled by
defaults. -/
def stopSession (s : ScriptState) : StopResponse × ScriptState :=
  match s.currentSession with
  | some sess =>
    ({ success := true, message := "Session stopped", sessionName := sess.sessionName },
      { s with currentSession := some ({ sess with active := false }) })
  | none =>
    ({ success := true, message := "Session stopped", sessionName := "unknown" },
      { s with currentSession := some ({ sessionName := "", startedAt := 0, active := false }) })

/-- The stop entry point as the teacher app reaches it:
`SessionScreen.handleTerminate` calls `stopSession(route.params.sessionId)`,
but the `doPost` dispatcher (`part_005` line 105) invokes `stopSession()`
discarding everything but the action, so the session identifier is
ignored. -/
def stopSessionById (_sessionId : String) (s : ScriptState) : StopResponse × ScriptState :=
  stopSession s

/-- Result of `getResponses`. -/
inductive GetResult where
  | err (msg : String)
  | ok (responses : List Row)
deriving DecidableEq, Repr

/-- The row-collecting loop of `getResponses` (`part_005` lines
457–466): skip a row only when a session filter is present and the row
names a different session. -/
def collectResponses (sessionFilter : Option String) : List Row → List Row
  | [] => []
  | r :: rest =>
    match sessionFilter with
    | some f =>
      if r.sessionName ≠ f then collectResponses sessionFilter rest
      else r :: collectResponses sessionFilter rest
    | none => r :: collectResponses sessionFilter rest

/-- Embedding of `getResponses` (`part_005` lines 440–472): require `SHEET_ID`, then
return every sheet row that passes the session-name filter.  A missing
or empty filter parameter is falsy in the source and is modelled as
`none`. -/
def getResponses (sessionFilter : Option String) (s : ScriptState) : GetResult :=
  match s.sheetId with
  | none => GetResult.err "Sheet not set up"
  | some _ => GetResult.ok (collectResponses sessionFilter s.rows)

/-- The rows carried by a `GetResult`. -/
def GetResult.responsesOf : GetResult → List Row
  | GetResult.ok rs => rs
  | GetResult.err _ => []

/-- Modelled from the spec: the fixed session duration.  The constant
`SESSION_DURATION_MS` lives in `src/config.ts`, which is not among
these sources; the spec (§4.2) and the `SessionScreen` alert text
("The 10-minute session has ended") fix it at ten minutes. -/
def SESSION_DURATION_MS : Nat := 600000

/-- End instant of a session for the client countdown
(`SessionScreen.tsx` lines 42–43): `endTime = startTime + SESSION_DURATION_MS`. -/
def sessionEndTime (startTime : Nat) : Nat :=
  startTime + SESSION_DURATION_MS

/-- The client tick of `SessionScreen.tsx` (lines 45–55) fires the
terminate path exactly when `endTime - now <= 0`, i.e. when
`endTime ≤ now`. -/
def clientTickFires (startTime now : Nat) : Bool :=
  decide (sessionEndTime startTime ≤ now)

/-- Run a sequence of student submissions (email, name, timestamp)
against the store, threading the state as the web app does for
successive requests. -/
def runSubmits (calls : List (String × String × Nat)) (s : ScriptState) : ScriptState :=
  calls.foldl (fun st c => (handleStudentSubmission c.1 c.2.1 c.2.2 st).2) s

/-- Two rows record the same (session, identity) pair: identities are
compared case-insensitively, sessions by name, exactly as the duplicate
scan of `handleStudentSubmission` does. -/
def recordKeyClash (a b : Row) : Prop :=
  jsToLower a.email = jsToLower b.email ∧ a.sessionName = b.sessionName

instance (a b : Row) : Decidable (recordKeyClash a b) := by
  unfold recordKeyClash
  infer_instance

/-- The at-most-one-record-per-(session, identity) invariant of the
attendance sheet: no two rows record the same pair. -/
def atMostOnePerPair (rows : List Row) : Prop :=
  rows.Pairwise (fun a b => ¬ recordKeyClash a b)

instance (rows : List Row) : Decidable (atMostOnePerPair rows) := by
  unfold atMostOnePerPair
  infer_instance

/-- A configured store with no session and an empty sheet. -/
def blankStore : ScriptState :=
  { sheetId := some "sheet"
    rollMapId := some "rollmap"
    rollMap := [("Student1@College.edu", "21ME001")]
    currentSession := none
    rows := [] }

/-- A configured store with an active session named `Test` started at 0. -/
def activeStore : ScriptState :=
  { blankStore with currentSession := some ⟨"Test", 0, true⟩ }

/-- The session identifiers present in the (non-purged) store: the
current session's name and the session names of the recorded rows. -/
def storedSessionIds (s : ScriptState) : List String :=
  (match s.currentSession with
   | some sess => [sess.sessionName]
   | none => []) ++ s.rows.map (fun r => r.sessionName)

/-- C5 as stated: a successful creation equips the new session with an
access identifier distinct from every identifier already present in
the non-purged store (collision would have forced a retry). -/
def claimC5 : Prop :=
  ∀ (s : ScriptState) (n : String) (t : Nat) (sess2 : SessionState),
    (startSession n t s).1.isOk = true →
    (startSession n t s).2.currentSession = some sess2 →
    sess2.sessionName ∉ storedSessionIds s

/-- A store that already holds a (stopped) session named `S1` with one
recorded submission. -/
def c5Store : ScriptState :=
  { sheetId := some "sheet"
    rollMapId := some "rollmap"
    rollMap := []
    currentSession := some ⟨"S1", 0, false⟩
    rows := [⟨"a@x", "NOT FOUND", "S1", 10⟩] }

/-- C2 as stated: once `createdAt + fixedDuration` has elapsed, every
submission is rejected, whether or not stop was ever called. -/
def claimC2 : Prop :=
  ∀ (s : ScriptState) (sess : SessionState) (e n : String) (now : Nat),
    s.currentSession = some sess →
    sessionEndTime sess.startedAt ≤ now →
    (handleStudentSubmission e n now s).1 ≠ SubmitResult.success

/-- C4 as stated: after two sessions are created in succession,
stopping the first leaves the second session's state unchanged. -/
def claimC4 : Prop :=
  ∀ (s0 : ScriptState) (n1 n2 : String) (t1 t2 : Nat),
    (startSession n1 t1 s0).1.isOk = true →
    ((startSession n2 t2 (startSession n1 t1 s0).2).1).isOk = true →
    ((stopSessionById n1 ((startSession n2 t2 (startSession n1 t1 s0).2).2)).2).currentSession
      = ((startSession n2 t2 (startSession n1 t1 s0).2).2).currentSession

/-- Modelled from the spec: the retention window of two days.  No such
constant exists in the Apps Script backend; the spec (§4.6) and the
teacher-app UI ("Data Retention — 2 days") fix it. -/
def RETENTION_MS : Nat := 172800000

/-- C6 as stated: no read path ever surfaces a record older than the
retention window, whatever the current time. -/
def claimC6 : Prop :=
  ∀ (now : Nat) (s : ScriptState) (f : String) (r : Row),
    r ∈ (getResponses (some f) s).responsesOf →
    now ≤ r.timestamp + RETENTION_MS

/-- A store holding one submission recorded at time 0 for a session
named `Old`. -/
def c6Store : ScriptState :=
  { sheetId := some "sheet"
    rollMapId := some "rollmap"
    rollMap := []
    currentSession := some ⟨"Old", 0, false⟩
    rows := [⟨"a@x", "21ME001", "Old", 0⟩] }

/-- A store whose sheet already holds the pair (`Test`, `a@x`). -/
def c1Store : ScriptState :=
  { sheetId := some "sheet"
    rollMapId := some "rollmap"
    rollMap := []
    currentSession := some ⟨"Test", 0, true⟩
    rows := [⟨"a@x", "NOT FOUND", "Test", 1⟩] }

/-- A store with an active session, an empty sheet and a one-entry
roll map whose email is stored in mixed case. -/
def c8Store : ScriptState :=
  { sheetId := some "sheet"
    rollMapId := some "rollmap"
    rollMap := [("Known@College.edu", "21ME001")]
    currentSession := some ⟨"Test", 0, true⟩
    rows := [] }

/-- Outcome of the device-binding authorisation of spec §4.4. -/
inductive AuthorizeResult where
  | boundNow
  | alreadyAuthorized
  | mismatch
deriving DecidableEq, Repr

/-- The device-binding table: identity paired with the one bound
fingerprint. -/
abbrev DeviceRegistry := List (String × String)

/-- The fingerprint an identity is bound to, if any. -/
def bindingOf (reg : DeviceRegistry) (identity : String) : Option String :=
  (reg.find? (fun p => decide (p.1 = identity))).map (fun p => p.2)

/-- Modelled from the spec: `DeviceBindingRegistry.authorize` (§4.4).
The registry is enforced by the node server behind
`/api/student/login` and `/api/student/submit` (called from
`StudentLoginScreen.tsx` and `StudentScannerScreen.tsx` with the
device hash), which is not among these sources.  First call for an
identity records the binding and returns bound-now; a repeat call with
the same fingerprint returns already-authorized; a different
fingerprint returns mismatch and must not mutate state. -/
def authorize (identity fp : String) (reg : DeviceRegistry) :
    AuthorizeResult × DeviceRegistry :=
  match reg.find? (fun p => decide (p.1 = identity)) with
  | none => (AuthorizeResult.boundNow, reg ++ [(identity, fp)])
  | some p =>
    if p.2 = fp then (AuthorizeResult.alreadyAuthorized, reg)
    else (AuthorizeResult.mismatch, reg)

/-- Verdict of the device gate inside the submission pipeline. -/
inductive DeviceGate where
  | proceed
  | deviceMismatch
deriving DecidableEq, Repr

/-- Modelled from the spec: step 2 of `SubmissionLedger.submit` (§4.3)
— consult the registry before the duplicate check; a mismatch fails
the submission with `DeviceMismatch` in whatever session it targets. -/
def submitDeviceGate (_sessionCode identity fp : String) (reg : DeviceRegistry) :
    DeviceGate × DeviceRegistry :=
  match authorize identity fp reg with
  | (AuthorizeResult.mismatch, r) => (DeviceGate.deviceMismatch, r)
  | (AuthorizeResult.boundNow, r) => (DeviceGate.proceed, r)
  | (AuthorizeResult.alreadyAuthorized, r) => (DeviceGate.proceed, r)

/-! ## Theorems -/

theorem charToLower_of_not_upper (c : Char) (h : ¬(c.toNat ≥ 65 ∧ c.toNat ≤ 90)) :
    c.toLower = c := by
  unfold Char.toLower
  simp only [if_neg h]

theorem charToNat_toLower_of_upper (c : Char) (h : c.toNat ≥ 65 ∧ c.toNat ≤ 90) :
    c.toLower.toNat = c.toNat + 32 := by
  unfold Char.toLower
  simp only [if_pos h]
  have hv : Nat.isValidChar (c.toNat + 32) := Or.inl (by omega)
  simp only [Char.ofNat, Char.toNat] at hv ⊢
  rw [dif_pos hv]
  rfl

theorem charToLower_idem (c : Char) : c.toLower.toLower = c.toLower := by
  by_cases h : c.toNat ≥ 65 ∧ c.toNat ≤ 90
  · have ht := charToNat_toLower_of_upper c h
    exact charToLower_of_not_upper _ (by omega)
  · rw [charToLower_of_not_upper c h, charToLower_of_not_upper c h]

theorem jsToLower_idem (s : String) : jsToLower (jsToLower s) = jsToLower s := by
  cases s with
  | mk data =>
    show String.mk (List.map Char.toLower (List.map Char.toLower data)) = _
    rw [List.map_map]
    exact congrArg String.mk (List.map_congr_left (fun c _ => charToLower_idem c))

/-- C7: calling `stopSession` when the current session is already
inactive returns a success response carrying the session name and
leaves both the stored session (in particular its name and start
timestamp) and the whole store byte-for-byte unchanged. -/
theorem c7_stop_idempotent (s : ScriptState) (sess : SessionState)
    (h : s.currentSession = some sess) (ha : sess.active = false) :
    stopSession s =
      ({ success := true, message := "Session stopped", sessionName := sess.sessionName }, s) := by
  obtain ⟨n, t, a⟩ := sess
  cases a with
  | false =>
    cases s with
    | mk sheetId rollMapId rollMap currentSession rows =>
      simp only at h
      subst h
      simp [stopSession]
  | true => simp at ha

/-- Witness for C7 at a concrete stopped session. -/
theorem c7_witness :
    stopSession { blankStore with currentSession := some ⟨"Test", 0, false⟩ } =
      ({ success := true, message := "Session stopped", sessionName := "Test" },
        { blankStore with currentSession := some ⟨"Test", 0, false⟩ }) :=
  c7_stop_idempotent _ ⟨"Test", 0, false⟩ rfl rfl

/-- C9: with the spreadsheet configured, `startSession` fails with the
invalid-input error and registers nothing when the name trims to
empty, and otherwise succeeds storing exactly the trimmed name as the
new active session. -/
theorem c9_name_validation (name : String) (t : Nat) (s : ScriptState) (sid : String)
    (h : s.sheetId = some sid) :
    startSession name t s =
      if jsTrim name = "" then (StartResult.err "Session name is required", s)
      else (StartResult.ok (jsTrim name) (sheetUrlOf sid),
        { s with currentSession := some ⟨jsTrim name, t, true⟩ }) := by
  by_cases he : jsTrim name = ""
  · simp only [startSession, he, if_pos, if_true]
  · simp only [startSession, he, if_neg, if_false, h]

/-- Witness for C9 at a concrete name with surrounding whitespace. -/
theorem c9_witness :
    startSession "  Algo 101  " 5 blankStore =
      if jsTrim "  Algo 101  " = "" then (StartResult.err "Session name is required", blankStore)
      else (StartResult.ok (jsTrim "  Algo 101  ") (sheetUrlOf "sheet"),
        { blankStore with currentSession := some ⟨jsTrim "  Algo 101  ", 5, true⟩ }) :=
  c9_name_validation "  Algo 101  " 5 blankStore "sheet" rfl

/-- C10: whatever the prior state (including an active session),
a successful `startSession n` installs the trimmed `n` as the one
current active session, and any submission the new state accepts is
appended under that name. -/
theorem c10_create_overwrites (s : ScriptState) (sid n : String) (t : Nat)
    (e nm : String) (now : Nat) (s2 : ScriptState)
    (hsheet : s.sheetId = some sid) (hn : jsTrim n ≠ "")
    (hsub : handleStudentSubmission e nm now (startSession n t s).2 = (SubmitResult.success, s2)) :
    (startSession n t s).2.currentSession = some ⟨jsTrim n, t, true⟩
    ∧ ∃ row, s2.rows = (startSession n t s).2.rows ++ [row] ∧ row.sessionName = jsTrim n := by
  have hstate : (startSession n t s).2 =
      { s with currentSession := some ⟨jsTrim n, t, true⟩ } := by
    simp only [startSession, if_neg hn, hsheet]
  rw [hstate] at hsub ⊢
  refine ⟨rfl, ?_⟩
  simp only [handleStudentSubmission, hsheet] at hsub
  by_cases he : jsToLower (jsTrim e) = "" ∨ jsTrim nm = ""
  · rw [if_pos he] at hsub
    exact absurd (congrArg Prod.fst hsub) (by simp)
  · rw [if_neg he] at hsub
    by_cases hd : ({ s with currentSession := some ⟨jsTrim n, t, true⟩ } : ScriptState).rows.any
        (fun r => decide (jsToLower r.email = jsToLower (jsTrim e) ∧ r.sessionName = jsTrim n)) = true
    · rw [if_pos hd] at hsub
      exact absurd (congrArg Prod.fst hsub) (by simp)
    · rw [if_neg hd] at hsub
      have hrows := congrArg (fun p => p.2.rows) hsub
      exact ⟨_, hrows.symm, rfl⟩

/-- Witness for C10: an active session `Old` is silently replaced by
`New`, and the next accepted submission lands under `New`. -/
theorem c10_witness :
    (startSession "New" 100 { blankStore with currentSession := some ⟨"Old", 0, true⟩ }).2.currentSession
        = some ⟨jsTrim "New", 100, true⟩
    ∧ ∃ row,
        ({ blankStore with
            currentSession := some ⟨"New", 100, true⟩
            rows := [⟨"a@x", "NOT FOUND", "New", 101⟩] } : ScriptState).rows
          = (startSession "New" 100 { blankStore with currentSession := some ⟨"Old", 0, true⟩ }).2.rows
              ++ [row]
        ∧ row.sessionName = jsTrim "New" :=
  c10_create_overwrites { blankStore with currentSession := some ⟨"Old", 0, true⟩ }
    "sheet" "New" 100 "a@x" "A" 101
    { blankStore with
        currentSession := some ⟨"New", 100, true⟩
        rows := [⟨"a@x", "NOT FOUND", "New", 101⟩] }
    rfl (by decide) (by decide)

/-- Counterexample to C5: creating a second session named `S1` succeeds
and the new session's only identifier, its name, collides with the
existing non-purged session `S1`; nothing is regenerated. -/
theorem c5_counterexample : ¬ claimC5 := by
  intro h
  exact h c5Store "S1" 1000 ⟨"S1", 1000, true⟩ (by decide) (by decide) (by decide)

/-- C5 amended: `startSession` assigns no access code at all — the
session is identified solely by its trimmed name, and creation
succeeds with exactly that name regardless of the names already in the
store, with no collision check and no retry. -/
theorem c5_no_access_code (s : ScriptState) (sid n : String) (t : Nat)
    (hsheet : s.sheetId = some sid) (hn : jsTrim n ≠ "") :
    startSession n t s =
      (StartResult.ok (jsTrim n) (sheetUrlOf sid),
        { s with currentSession := some ⟨jsTrim n, t, true⟩ }) := by
  simp only [startSession, if_neg hn, hsheet]

/-- Witness for the amended C5: the colliding creation of
`c5_counterexample`, shown to store the colliding name verbatim. -/
theorem c5_witness :
    startSession "S1" 1000 c5Store =
      (StartResult.ok (jsTrim "S1") (sheetUrlOf "sheet"),
        { c5Store with currentSession := some ⟨jsTrim "S1", 1000, true⟩ }) :=
  c5_no_access_code c5Store "sheet" "S1" 1000 rfl (by decide)

/-- Counterexample to C2: the backend never compares `now` with the
session's start time, so a submission arriving a full duration after
`startedAt`, with no stop processed yet, is accepted. -/
theorem c2_counterexample : ¬ claimC2 := by
  intro h
  exact h activeStore ⟨"Test", 0, true⟩ "a@x" "Alice" 600000 rfl (by decide) (by decide)

/-- C2 amended: expiry is enforced only on the client — the
`SessionScreen` countdown fires exactly when the fixed duration has
elapsed and then invokes `stopSession`; the backend rejects a
submission precisely when the current session has been marked
inactive, so only submissions arriving after that stop is processed
are refused. -/
theorem c2_expiry_client_driven (s : ScriptState) (e n : String) (now tstart : Nat)
    (he : jsToLower (jsTrim e) ≠ "") (hn : jsTrim n ≠ "") :
    clientTickFires tstart (sessionEndTime tstart) = true
    ∧ handleStudentSubmission e n now (stopSession s).2 =
        (SubmitResult.err "Session is closed", (stopSession s).2) := by
  constructor
  · simp [clientTickFires]
  · have hne : ¬(jsToLower (jsTrim e) = "" ∨ jsTrim n = "") := by
      intro hor
      cases hor with
      | inl h1 => exact he h1
      | inr h2 => exact hn h2
    cases hcur : s.currentSession with
    | none =>
      simp only [stopSession, hcur, handleStudentSubmission, if_neg hne]
      simp
    | some sess =>
      simp only [stopSession, hcur, handleStudentSubmission, if_neg hne]
      simp

/-- Witness for the amended C2: a concrete post-stop late submission is
rejected while the client timer for the same session has fired. -/
theorem c2_witness :
    clientTickFires 0 (sessionEndTime 0) = true
    ∧ handleStudentSubmission "a@x" "Alice" 999999 (stopSession activeStore).2 =
        (SubmitResult.err "Session is closed", (stopSession activeStore).2) :=
  c2_expiry_client_driven activeStore "a@x" "Alice" 999999 0 (by decide) (by decide)

/-- Counterexample to C4: create `S1` then `S2`; the stop requested for
`S1` deactivates `S2`, because the backend holds a single current
session and `stopSession` ignores the session identifier. -/
theorem c4_counterexample : ¬ claimC4 := by
  intro h
  have := h blankStore "S1" "S2" 0 1 (by decide) (by decide)
  exact absurd this (by decide)

/-- C4 amended: sessions are not independent — the store keeps exactly
one current session, a stop issued under any session identifier
deactivates whatever session is current, and that session then rejects
new submission records. -/
theorem c4_stop_hits_current_session (s : ScriptState) (sess : SessionState)
    (sid e n : String) (now : Nat)
    (h : s.currentSession = some sess)
    (he : jsToLower (jsTrim e) ≠ "") (hn : jsTrim n ≠ "") :
    (stopSessionById sid s).2.currentSession = some ({ sess with active := false })
    ∧ (handleStudentSubmission e n now (stopSessionById sid s).2).1 =
        SubmitResult.err "Session is closed" := by
  have hne : ¬(jsToLower (jsTrim e) = "" ∨ jsTrim n = "") := by
    intro hor
    cases hor with
    | inl h1 => exact he h1
    | inr h2 => exact hn h2
  constructor
  · simp only [stopSessionById, stopSession, h]
  · simp only [stopSessionById, stopSession, h, handleStudentSubmission, if_neg hne]
    simp

/-- Witness for the amended C4: stopping under the identifier `S1`
while `S2` is current deactivates `S2` and blocks its submissions. -/
theorem c4_witness :
    (stopSessionById "S1" { blankStore with currentSession := some ⟨"S2", 1, true⟩ }).2.currentSession
        = some ({ (⟨"S2", 1, true⟩ : SessionState) with active := false })
    ∧ (handleStudentSubmission "a@x" "A" 2
          (stopSessionById "S1" { blankStore with currentSession := some ⟨"S2", 1, true⟩ }).2).1 =
        SubmitResult.err "Session is closed" :=
  c4_stop_hits_current_session { blankStore with currentSession := some ⟨"S2", 1, true⟩ }
    ⟨"S2", 1, true⟩ "S1" "a@x" "A" 2 rfl (by decide) (by decide)

/-- Counterexample to C6: `getResponses` never consults the clock, so
the row recorded at time 0 is still returned when the retention window
has long elapsed. -/
theorem c6_counterexample : ¬ claimC6 := by
  intro h
  have := h (RETENTION_MS + 1) c6Store "Old" ⟨"a@x", "21ME001", "Old", 0⟩ (by decide)
  simp only [RETENTION_MS] at this
  omega

/-- C6 amended: the export read path applies only the session-name
filter — a row is returned exactly when it is on the sheet and names
the filtered session, independent of any age or retention window, and
the backend defines no sweep that could remove aged data. -/
theorem c6_no_retention_filter (s : ScriptState) (sid f : String) (r : Row)
    (h : s.sheetId = some sid) :
    r ∈ (getResponses (some f) s).responsesOf ↔ (r ∈ s.rows ∧ r.sessionName = f) := by
  have hmem : ∀ rows : List Row,
      r ∈ collectResponses (some f) rows ↔ (r ∈ rows ∧ r.sessionName = f) := by
    intro rows
    induction rows with
    | nil => simp [collectResponses]
    | cons a tl ih =>
      by_cases ha : a.sessionName = f
      · simp only [collectResponses, ha]
        simp only [ne_eq, not_true_eq_false, if_false, List.mem_cons, ih]
        constructor
        · intro hin
          cases hin with
          | inl hra => exact ⟨Or.inl hra, by rw [hra]; exact ha⟩
          | inr htl => exact ⟨Or.inr htl.1, htl.2⟩
        · intro hin
          cases hin.1 with
          | inl hra => exact Or.inl hra
          | inr htl => exact Or.inr ⟨htl, hin.2⟩
      · simp only [collectResponses, ne_eq, ha, not_false_eq_true, if_true, ih, List.mem_cons]
        constructor
        · intro hin
          exact ⟨Or.inr hin.1, hin.2⟩
        · intro hin
          cases hin.1 with
          | inl hra => exact absurd (hra ▸ hin.2) ha
          | inr htl => exact ⟨htl, hin.2⟩
  simp only [getResponses, h, GetResult.responsesOf]
  exact hmem s.rows

/-- Witness for the amended C6: the aged row of `c6Store` is returned
because it matches the filter, with no reference to any clock. -/
theorem c6_witness :
    (⟨"a@x", "21ME001", "Old", 0⟩ : Row) ∈ (getResponses (some "Old") c6Store).responsesOf ↔
      ((⟨"a@x", "21ME001", "Old", 0⟩ : Row) ∈ c6Store.rows
        ∧ (⟨"a@x", "21ME001", "Old", 0⟩ : Row).sessionName = "Old") :=
  c6_no_retention_filter c6Store "sheet" "Old" ⟨"a@x", "21ME001", "Old", 0⟩ rfl

/-- Either a submission leaves the sheet untouched, or the current
session was active, the duplicate scan found nothing, and exactly the
one new row was appended. -/
theorem submit_rows_shape (e n : String) (now : Nat) (s : ScriptState) :
    ((handleStudentSubmission e n now s).2).rows = s.rows
    ∨ ∃ sess, s.currentSession = some sess
        ∧ s.rows.any (fun r =>
            decide (jsToLower r.email = jsToLower (jsTrim e)
              ∧ r.sessionName = sess.sessionName)) = false
        ∧ ((handleStudentSubmission e n now s).2).rows
            = s.rows ++ [⟨jsToLower (jsTrim e),
                lookupRollNumber s (jsToLower (jsTrim e)), sess.sessionName, now⟩] := by
  by_cases h1 : jsToLower (jsTrim e) = "" ∨ jsTrim n = ""
  · left
    simp only [handleStudentSubmission, if_pos h1]
  · cases hcur : s.currentSession with
    | none =>
      left
      simp only [handleStudentSubmission, if_neg h1, hcur]
    | some sess =>
      by_cases hact : sess.active = false
      · left
        simp only [handleStudentSubmission, if_neg h1, hcur, if_pos hact]
      · cases hsheet : s.sheetId with
        | none =>
          left
          simp only [handleStudentSubmission, if_neg h1, hcur, if_neg hact, hsheet]
        | some sid =>
          by_cases hdup : s.rows.any (fun r =>
              decide (jsToLower r.email = jsToLower (jsTrim e)
                ∧ r.sessionName = sess.sessionName)) = true
          · left
            simp only [handleStudentSubmission, if_neg h1, hcur, if_neg hact, hsheet,
              if_pos hdup]
          · right
            refine ⟨sess, rfl, by simpa using hdup, ?_⟩
            simp only [handleStudentSubmission, if_neg h1, hcur, if_neg hact, hsheet,
              if_neg hdup]

/-- One submission preserves the at-most-one invariant: the appended
row's key was checked against every existing row by the duplicate
scan. -/
theorem submit_preserves_atMostOne (e n : String) (now : Nat) (s : ScriptState)
    (h : atMostOnePerPair s.rows) :
    atMostOnePerPair ((handleStudentSubmission e n now s).2).rows := by
  rcases submit_rows_shape e n now s with heq | ⟨sess, _, hscan, heq⟩
  · rw [heq]
    exact h
  · rw [heq]
    unfold atMostOnePerPair at h ⊢
    rw [List.pairwise_append]
    refine ⟨h, List.pairwise_singleton _ _, ?_⟩
    intro a ha b hb
    simp only [List.mem_singleton] at hb
    subst hb
    intro hclash
    obtain ⟨hmail, hname⟩ := hclash
    simp only [jsToLower_idem] at hmail
    have hfail := List.any_eq_false.mp hscan a ha
    simp only [decide_eq_true_eq] at hfail
    exact hfail ⟨hmail, hname⟩

/-- The invariant is preserved across any sequence of submissions. -/
theorem runSubmits_preserves (calls : List (String × String × Nat)) :
    ∀ s : ScriptState, atMostOnePerPair s.rows →
      atMostOnePerPair (runSubmits calls s).rows := by
  induction calls with
  | nil =>
    intro s h
    simpa [runSubmits] using h
  | cons c tl ih =>
    intro s h
    simp only [runSubmits, List.foldl_cons] at ih ⊢
    exact ih _ (submit_preserves_atMostOne c.1 c.2.1 c.2.2 s h)

/-- C1: from any sheet satisfying the at-most-one invariant, every
sequence of submit calls preserves it, and a submission for a
(session, identity) pair that already has a recorded row is rejected
with the duplicate error and appends nothing. -/
theorem c1_at_most_one_submission (s : ScriptState) (calls : List (String × String × Nat))
    (sess : SessionState) (sid e n : String) (now : Nat)
    (hinv : atMostOnePerPair s.rows)
    (hsess : s.currentSession = some sess) (hact : sess.active = true)
    (hsheet : s.sheetId = some sid)
    (he : jsToLower (jsTrim e) ≠ "") (hn : jsTrim n ≠ "")
    (hdup : s.rows.any (fun r =>
        decide (jsToLower r.email = jsToLower (jsTrim e)
          ∧ r.sessionName = sess.sessionName)) = true) :
    atMostOnePerPair (runSubmits calls s).rows
    ∧ handleStudentSubmission e n now s =
        (SubmitResult.err "You have already submitted for this session", s) := by
  refine ⟨runSubmits_preserves calls s hinv, ?_⟩
  have hne : ¬(jsToLower (jsTrim e) = "" ∨ jsTrim n = "") := by
    intro hor
    cases hor with
    | inl hx => exact he hx
    | inr hx => exact hn hx
  have hact' : ¬(sess.active = false) := by simp [hact]
  simp only [handleStudentSubmission, if_neg hne, hsess, if_neg hact', hsheet, if_pos hdup]

/-- Witness for C1: a repeat submission (in different letter case) for
the recorded pair is rejected and the invariant survives a further
sequence of calls. -/
theorem c1_witness :
    atMostOnePerPair (runSubmits [("A@X", "Again", 2), ("b@x", "Other", 3)] c1Store).rows
    ∧ handleStudentSubmission "A@X" "Again" 2 c1Store =
        (SubmitResult.err "You have already submitted for this session", c1Store) :=
  c1_at_most_one_submission c1Store [("A@X", "Again", 2), ("b@x", "Other", 3)]
    ⟨"Test", 0, true⟩ "sheet" "A@X" "Again" 2
    (by decide) rfl rfl rfl (by decide) (by decide) (by decide)

/-- C8: identifier resolution is case-insensitive — the handler
normalises the submitted identity, so submissions differing only in
case behave identically, and a table entry stored in any case is found
— and a failed lookup is never fatal: with the identity absent from
the reference table the submission still succeeds, recording the
`NOT FOUND` sentinel as the roll number. -/
theorem c8_roll_lookup (s : ScriptState) (sess : SessionState) (sid rid : String)
    (e1 e2 nm : String) (now : Nat) (E roll : String) (tail : List (String × String))
    (hsheet : s.sheetId = some sid) (hmap : s.rollMapId = some rid)
    (hsess : s.currentSession = some sess) (hact : sess.active = true)
    (he : jsToLower (jsTrim e1) ≠ "") (hnm : jsTrim nm ≠ "")
    (hcase : jsToLower (jsTrim e1) = jsToLower (jsTrim e2))
    (hnodup : s.rows.any (fun r =>
        decide (jsToLower r.email = jsToLower (jsTrim e1)
          ∧ r.sessionName = sess.sessionName)) = false)
    (hfind : s.rollMap.find? (fun p =>
        decide (jsTrim (jsToLower p.1) = jsToLower (jsTrim e1))) = none) :
    handleStudentSubmission e1 nm now s =
      (SubmitResult.success,
        { s with rows := s.rows ++
            [⟨jsToLower (jsTrim e1), "NOT FOUND", sess.sessionName, now⟩] })
    ∧ handleStudentSubmission e1 nm now s = handleStudentSubmission e2 nm now s
    ∧ lookupRollNumber { s with rollMap := (E, roll) :: tail } (jsTrim (jsToLower E)) = roll := by
  have hne : ¬(jsToLower (jsTrim e1) = "" ∨ jsTrim nm = "") := by
    intro hor
    cases hor with
    | inl hx => exact he hx
    | inr hx => exact hnm hx
  have hact' : ¬(sess.active = false) := by simp [hact]
  have hnodup' : ¬(s.rows.any (fun r =>
      decide (jsToLower r.email = jsToLower (jsTrim e1)
        ∧ r.sessionName = sess.sessionName)) = true) := by
    rw [hnodup]
    simp
  refine ⟨?_, ?_, ?_⟩
  · simp only [handleStudentSubmission, if_neg hne, hsess, if_neg hact', hsheet,
      if_neg hnodup', lookupRollNumber, hmap, hfind]
  · simp only [handleStudentSubmission]
    rw [hcase]
  · obtain ⟨a, b, c, d, f⟩ := s
    simp only at hmap
    subst hmap
    simp only [lookupRollNumber]
    rw [List.find?_cons_of_pos _ (by simp)]

/-- Witness for C8 at an identity absent from the roll map, submitted
in two different letter cases. -/
theorem c8_witness :
    handleStudentSubmission "Nobody@X" "N" 5 c8Store =
      (SubmitResult.success,
        { c8Store with rows := c8Store.rows ++
            [⟨jsToLower (jsTrim "Nobody@X"), "NOT FOUND", (⟨"Test", 0, true⟩ : SessionState).sessionName, 5⟩] })
    ∧ handleStudentSubmission "Nobody@X" "N" 5 c8Store =
        handleStudentSubmission "nobody@x" "N" 5 c8Store
    ∧ lookupRollNumber { c8Store with rollMap := ("Known@College.edu", "21ME001") :: [] }
        (jsTrim (jsToLower "Known@College.edu")) = "21ME001" :=
  c8_roll_lookup c8Store ⟨"Test", 0, true⟩ "sheet" "rollmap" "Nobody@X" "nobody@x" "N" 5
    "Known@College.edu" "21ME001" []
    rfl rfl rfl rfl (by decide) (by decide) (by decide) (by decide) (by decide)

theorem find?_append_of_none {α : Type} {p : α → Bool} {l1 l2 : List α}
    (h : l1.find? p = none) : (l1 ++ l2).find? p = l2.find? p := by
  induction l1 with
  | nil => simp
  | cons a tl ih =>
    rw [List.find?_cons] at h
    cases hpa : p a with
    | true => rw [hpa] at h; exact absurd h (by simp)
    | false =>
      rw [hpa] at h
      rw [List.cons_append, List.find?_cons, hpa]
      exact ih h

/-- C3: an identity bound to fingerprint `f` fails the device gate with
a mismatch for any other fingerprint `g` in every session, the
mismatching call leaves the registry untouched, and the first call for
an unbound identity records the binding. -/
theorem c3_device_binding (reg : DeviceRegistry) (identity f g sessionCode i2 d : String)
    (hb : bindingOf reg identity = some f) (hne : g ≠ f)
    (h2 : bindingOf reg i2 = none) :
    submitDeviceGate sessionCode identity g reg = (DeviceGate.deviceMismatch, reg)
    ∧ (authorize i2 d reg).1 = AuthorizeResult.boundNow
    ∧ bindingOf (authorize i2 d reg).2 i2 = some d := by
  obtain ⟨p, hp, hpf⟩ := Option.map_eq_some'.mp hb
  have hfind2 : reg.find? (fun q => decide (q.1 = i2)) = none :=
    Option.map_eq_none'.mp h2
  have hpg : ¬(p.2 = g) := by
    rw [hpf]
    exact fun hx => hne hx.symm
  refine ⟨?_, ?_, ?_⟩
  · simp only [submitDeviceGate, authorize, hp, if_neg hpg]
  · simp only [authorize, hfind2]
  · simp only [authorize, hfind2, bindingOf]
    rw [find?_append_of_none hfind2, List.find?_cons_of_pos _ (by simp)]
    rfl

/-- Witness for C3: `a@x` bound to `D1` is refused with `D2` in some
session without mutation, and fresh identity `b@x` gets bound to `D3`. -/
theorem c3_witness :
    submitDeviceGate "S1" "a@x" "D2" [("a@x", "D1")] = (DeviceGate.deviceMismatch, [("a@x", "D1")])
    ∧ (authorize "b@x" "D3" [("a@x", "D1")]).1 = AuthorizeResult.boundNow
    ∧ bindingOf (authorize "b@x" "D3" [("a@x", "D1")]).2 "b@x" = some "D3" :=
  c3_device_binding [("a@x", "D1")] "a@x" "D1" "D2" "S1" "b@x" "D3"
    (by decide) (by decide) (by decide)
